import Mathlib

/-!
# PWMFrequency: `setPWMPrescaler`

Shallow embedding of `libraries/PWMFrequency/PWMFrequency.h`.

The header defines `setPWMPrescaler` twice, selected by the preprocessor:
the `__AVR_ATmega32U4__` definition (namespace `ATmega32U4`) and the `#else`
definition (namespace `Standard`).  The timer control registers the function
reads and writes are made an explicit state record that the function maps to
the state after the call.

Machine integers are natural numbers.  Both parameters are declared `uint8_t`,
so the value the body sees is the argument reduced modulo `2^8`; a register
is a byte cell that reads back what was stored, and a store keeps the low
eight bits of the stored value.  `a & b | c` is `(a & b) | c`.
-/

namespace Standard

/-- The timer control registers used by the `#else` definition. -/
structure Regs where
  TCCR0B : Nat
  TCCR1B : Nat
  TCCR2B : Nat
deriving DecidableEq, Repr

/-- The first `switch(prescale)` (lines 117-124); `none` is `default: return`. -/
def switchTimer01 (prescale : Nat) : Option Nat :=
  if prescale = 1 then some 0x01
  else if prescale = 8 then some 0x02
  else if prescale = 64 then some 0x03
  else if prescale = 256 then some 0x04
  else if prescale = 1024 then some 0x05
  else none

/-- The second `switch(prescale)` (lines 131-140); `none` is `default: return`. -/
def switchTimer2 (prescale : Nat) : Option Nat :=
  if prescale = 1 then some 0x01
  else if prescale = 8 then some 0x02
  else if prescale = 32 then some 0x03
  else if prescale = 64 then some 0x04
  else if prescale = 128 then some 0x05
  else if prescale = 256 then some 0x06
  else if prescale = 1024 then some 0x7
  else none

/-- The `#else` definition `void setPWMPrescaler(uint8_t pin, uint8_t prescale)`
(lines 114-143): the register state after the call, from the state before it
and the two arguments. -/
def setPWMPrescaler (s : Regs) (pin prescale : Nat) : Regs :=
  let pin := pin % 2 ^ 8
  let prescale := prescale % 2 ^ 8
  if pin = 5 ∨ pin = 6 ∨ pin = 9 ∨ pin = 10 then
    match switchTimer01 prescale with
    | none => s
    | some mode =>
      if pin = 5 ∨ pin = 6 then
        { s with TCCR0B := ((s.TCCR0B &&& 0b11111000) ||| mode) % 2 ^ 8 }
      else
        { s with TCCR1B := ((s.TCCR1B &&& 0b11111000) ||| mode) % 2 ^ 8 }
  else if pin = 3 ∨ pin = 11 then
    match switchTimer2 prescale with
    | none => s
    | some mode =>
      { s with TCCR2B := ((s.TCCR2B &&& 0b11111000) ||| mode) % 2 ^ 8 }
  else s

end Standard

namespace ATmega32U4

/-- The timer control registers used by the `__AVR_ATmega32U4__` definition. -/
structure Regs where
  TCCR0B : Nat
  TCCR1B : Nat
  TCCR3B : Nat
  TCCR4B : Nat
deriving DecidableEq, Repr

/-- The first `switch(prescale)` (lines 42-49); `none` is `default: return`. -/
def switchFirst (prescale : Nat) : Option Nat :=
  if prescale = 1 then some 0x01
  else if prescale = 8 then some 0x02
  else if prescale = 64 then some 0x03
  else if prescale = 256 then some 0x04
  else if prescale = 1024 then some 0x05
  else none

/-- The second `switch(prescale)` (lines 59-76); `none` is `default: return`. -/
def switchTimer4 (prescale : Nat) : Option Nat :=
  if prescale = 1 then some 0x01
  else if prescale = 2 then some 0x02
  else if prescale = 4 then some 0x03
  else if prescale = 8 then some 0x04
  else if prescale = 16 then some 0x05
  else if prescale = 32 then some 0x06
  else if prescale = 64 then some 0x07
  else if prescale = 128 then some 0x08
  else if prescale = 256 then some 0x09
  else if prescale = 512 then some 0x0A
  else if prescale = 1024 then some 0x0B
  else if prescale = 2048 then some 0x0C
  else if prescale = 4096 then some 0x0D
  else if prescale = 8192 then some 0x0E
  else if prescale = 16384 then some 0x0F
  else none

/-- The `__AVR_ATmega32U4__` definition
`void setPWMPrescaler(uint8_t pin, uint8_t prescale)` (lines 38-79): the
register state after the call, from the state before it and the two
arguments. -/
def setPWMPrescaler (s : Regs) (pin prescale : Nat) : Regs :=
  let pin := pin % 2 ^ 8
  let prescale := prescale % 2 ^ 8
  if pin = 3 ∨ pin = 5 ∨ pin = 9 ∨ pin = 10 ∨ pin = 11 then
    match switchFirst prescale with
    | none => s
    | some mode =>
      if pin = 3 ∨ pin = 11 then
        { s with TCCR0B := ((s.TCCR1B &&& 0b11111000) ||| mode) % 2 ^ 8 }
      else if pin = 9 ∨ pin = 10 then
        { s with TCCR1B := ((s.TCCR1B &&& 0b11111000) ||| mode) % 2 ^ 8 }
      else
        { s with TCCR3B := ((s.TCCR3B &&& 0b11111000) ||| mode) % 2 ^ 8 }
  else if pin = 3 ∨ pin = 11 then
    match switchTimer4 prescale with
    | none => s
    | some mode =>
      { s with TCCR4B := ((s.TCCR4B &&& 0b11110000) ||| mode) % 2 ^ 8 }
  else s

end ATmega32U4

/-! ## Auxiliary facts about the byte store and the switches -/

/-- Storing `(x & 0b11111000) | mode` with a three-bit `mode` keeps bits 3..7 of `x`. -/
theorem store3_high_bits (x mode : Nat) (hm : mode < 8) :
    (((x &&& 0b11111000) ||| mode) % 2 ^ 8) &&& 0b11111000 = x &&& 0b11111000 := by
  have h0 : mode &&& 0b11111000 = 0 := by
    interval_cases mode <;> decide
  have h1 : (2 ^ 8 - 1) &&& 0b11111000 = 0b11111000 := by decide
  rw [← Nat.and_pow_two_sub_one_eq_mod, Nat.and_assoc, h1, Nat.and_distrib_right, h0,
    Nat.and_assoc, Nat.and_self, Nat.or_zero]

/-- Every mode code of the first standard switch fits in three bits. -/
theorem std_switchTimer01_lt {p mode : Nat} (h : Standard.switchTimer01 p = some mode) :
    mode < 8 := by
  unfold Standard.switchTimer01 at h
  split_ifs at h <;> simp at h <;> omega

/-- Every mode code of the second standard switch fits in three bits. -/
theorem std_switchTimer2_lt {p mode : Nat} (h : Standard.switchTimer2 p = some mode) :
    mode < 8 := by
  unfold Standard.switchTimer2 at h
  split_ifs at h <;> simp at h <;> omega

/-- Every mode code of the first 32U4 switch fits in three bits. -/
theorem u4_switchFirst_lt {p mode : Nat} (h : ATmega32U4.switchFirst p = some mode) :
    mode < 8 := by
  unfold ATmega32U4.switchFirst at h
  split_ifs at h <;> simp at h <;> omega

/-- An argument that is a multiple of `2^8` reaches the body as `0` and hits
`default: return` (or no pin branch): the standard call changes nothing. -/
theorem std_setPWMPrescaler_mul_256 (s : Standard.Regs) (pin k : Nat) :
    Standard.setPWMPrescaler s pin (256 * k) = s := by
  simp [Standard.setPWMPrescaler, Standard.switchTimer01, Standard.switchTimer2]

/-- An argument that is a multiple of `2^8` reaches the body as `0` and hits
`default: return` (or no pin branch): the 32U4 call changes nothing. -/
theorem u4_setPWMPrescaler_mul_256 (s : ATmega32U4.Regs) (pin k : Nat) :
    ATmega32U4.setPWMPrescaler s pin (256 * k) = s := by
  simp [ATmega32U4.setPWMPrescaler, ATmega32U4.switchFirst, ATmega32U4.switchTimer4]

/-- The 32U4 call never changes `TCCR4B`: every pin that satisfies the test of
the `TCCR4B` branch has already been taken by the first branch. -/
theorem u4_setPWMPrescaler_TCCR4B (s : ATmega32U4.Regs) (pin prescale : Nat) :
    (ATmega32U4.setPWMPrescaler s pin prescale).TCCR4B = s.TCCR4B := by
  unfold ATmega32U4.setPWMPrescaler
  simp only []
  by_cases h1 : pin % 2 ^ 8 = 3 ∨ pin % 2 ^ 8 = 5 ∨ pin % 2 ^ 8 = 9 ∨ pin % 2 ^ 8 = 10 ∨
      pin % 2 ^ 8 = 11
  · rw [if_pos h1]
    cases ATmega32U4.switchFirst (prescale % 2 ^ 8) with
    | none => rfl
    | some mode => simp only []; split_ifs <;> rfl
  · have h2 : ¬ (pin % 2 ^ 8 = 3 ∨ pin % 2 ^ 8 = 11) := by omega
    rw [if_neg h1, if_neg h2]

/-- What a standard call does depends on the arguments only: it is the
identity, or it stores `(old & 0b11111000) | mode` with a three-bit `mode` in
exactly one of `TCCR0B`, `TCCR1B`, `TCCR2B`. -/
theorem std_setPWMPrescaler_cases (pin prescale : Nat) :
    (∀ s, Standard.setPWMPrescaler s pin prescale = s) ∨
    (∃ mode, mode < 8 ∧ ∀ s, Standard.setPWMPrescaler s pin prescale
        = { s with TCCR0B := ((s.TCCR0B &&& 0b11111000) ||| mode) % 2 ^ 8 }) ∨
    (∃ mode, mode < 8 ∧ ∀ s, Standard.setPWMPrescaler s pin prescale
        = { s with TCCR1B := ((s.TCCR1B &&& 0b11111000) ||| mode) % 2 ^ 8 }) ∨
    (∃ mode, mode < 8 ∧ ∀ s, Standard.setPWMPrescaler s pin prescale
        = { s with TCCR2B := ((s.TCCR2B &&& 0b11111000) ||| mode) % 2 ^ 8 }) := by
  by_cases h1 : pin % 2 ^ 8 = 5 ∨ pin % 2 ^ 8 = 6 ∨ pin % 2 ^ 8 = 9 ∨ pin % 2 ^ 8 = 10
  · cases hsw : Standard.switchTimer01 (prescale % 2 ^ 8) with
    | none =>
      left; intro s
      simp only [Standard.setPWMPrescaler, if_pos h1, hsw]
    | some mode =>
      have hm := std_switchTimer01_lt hsw
      by_cases h2 : pin % 2 ^ 8 = 5 ∨ pin % 2 ^ 8 = 6
      · right; left
        refine ⟨mode, hm, fun s => ?_⟩
        simp only [Standard.setPWMPrescaler, if_pos h1, hsw, if_pos h2]
      · right; right; left
        refine ⟨mode, hm, fun s => ?_⟩
        simp only [Standard.setPWMPrescaler, if_pos h1, hsw, if_neg h2]
  · by_cases h3 : pin % 2 ^ 8 = 3 ∨ pin % 2 ^ 8 = 11
    · cases hsw : Standard.switchTimer2 (prescale % 2 ^ 8) with
      | none =>
        left; intro s
        simp only [Standard.setPWMPrescaler, if_neg h1, if_pos h3, hsw]
      | some mode =>
        right; right; right
        refine ⟨mode, std_switchTimer2_lt hsw, fun s => ?_⟩
        simp only [Standard.setPWMPrescaler, if_neg h1, if_pos h3, hsw]
    · left; intro s
      simp only [Standard.setPWMPrescaler, if_neg h1, if_neg h3]

/-- What a 32U4 call does depends on the arguments only: it is the identity, or
it stores `(TCCR1B & 0b11111000) | mode` in `TCCR0B`, or it stores
`(old & 0b11111000) | mode` in `TCCR1B` or in `TCCR3B`, with a three-bit
`mode`. -/
theorem u4_setPWMPrescaler_cases (pin prescale : Nat) :
    (∀ s, ATmega32U4.setPWMPrescaler s pin prescale = s) ∨
    (∃ mode, mode < 8 ∧ ∀ s, ATmega32U4.setPWMPrescaler s pin prescale
        = { s with TCCR0B := ((s.TCCR1B &&& 0b11111000) ||| mode) % 2 ^ 8 }) ∨
    (∃ mode, mode < 8 ∧ ∀ s, ATmega32U4.setPWMPrescaler s pin prescale
        = { s with TCCR1B := ((s.TCCR1B &&& 0b11111000) ||| mode) % 2 ^ 8 }) ∨
    (∃ mode, mode < 8 ∧ ∀ s, ATmega32U4.setPWMPrescaler s pin prescale
        = { s with TCCR3B := ((s.TCCR3B &&& 0b11111000) ||| mode) % 2 ^ 8 }) := by
  by_cases h1 : pin % 2 ^ 8 = 3 ∨ pin % 2 ^ 8 = 5 ∨ pin % 2 ^ 8 = 9 ∨ pin % 2 ^ 8 = 10 ∨
      pin % 2 ^ 8 = 11
  · cases hsw : ATmega32U4.switchFirst (prescale % 2 ^ 8) with
    | none =>
      left; intro s
      simp only [ATmega32U4.setPWMPrescaler, if_pos h1, hsw]
    | some mode =>
      have hm := u4_switchFirst_lt hsw
      by_cases h2 : pin % 2 ^ 8 = 3 ∨ pin % 2 ^ 8 = 11
      · right; left
        refine ⟨mode, hm, fun s => ?_⟩
        simp only [ATmega32U4.setPWMPrescaler, if_pos h1, hsw, if_pos h2]
      · by_cases h3 : pin % 2 ^ 8 = 9 ∨ pin % 2 ^ 8 = 10
        · right; right; left
          refine ⟨mode, hm, fun s => ?_⟩
          simp only [ATmega32U4.setPWMPrescaler, if_pos h1, hsw, if_neg h2, if_pos h3]
        · right; right; right
          refine ⟨mode, hm, fun s => ?_⟩
          simp only [ATmega32U4.setPWMPrescaler, if_pos h1, hsw, if_neg h2, if_neg h3]
  · have h2 : ¬ (pin % 2 ^ 8 = 3 ∨ pin % 2 ^ 8 = 11) := by omega
    left; intro s
    simp only [ATmega32U4.setPWMPrescaler, if_neg h1, if_neg h2]

/-- Storing the same three-bit `mode` a second time changes nothing. -/
theorem store3_idem (x mode : Nat) (hm : mode < 8) :
    ((((((x &&& 0b11111000) ||| mode) % 2 ^ 8) &&& 0b11111000) ||| mode) % 2 ^ 8)
      = ((x &&& 0b11111000) ||| mode) % 2 ^ 8 := by
  rw [store3_high_bits x mode hm]

/-- The byte store of `(x & 0b11111000) | mode` never overflows: the stored
value is the computed value. -/
theorem store3_eq (x mode : Nat) (hm : mode < 8) :
    ((x &&& 0b11111000) ||| mode) % 2 ^ 8 = (x &&& 0b11111000) ||| mode :=
  Nat.mod_eq_of_lt
    (Nat.or_lt_two_pow (Nat.and_lt_two_pow x (by decide)) (by omega))

/-- The low three bits of a stored `(x & 0b11111000) | mode` are `mode`. -/
theorem store3_low_bits (x mode : Nat) (hm : mode < 8) :
    (((x &&& 0b11111000) ||| mode) % 2 ^ 8) % 8 = mode := by
  have h0 : (0b11111000 : Nat) &&& (2 ^ 3 - 1) = 0 := by decide
  have h1 : mode &&& (2 ^ 3 - 1) = mode :=
    Nat.and_pow_two_sub_one_of_lt_two_pow (by omega)
  rw [store3_eq x mode hm]
  show ((x &&& 0b11111000) ||| mode) % 2 ^ 3 = mode
  rw [← Nat.and_pow_two_sub_one_eq_mod, Nat.and_distrib_right, Nat.and_assoc, h0, h1,
    Nat.and_zero, Nat.zero_or]

/-- Standard pins 5 and 6: the call is decided by the first switch and writes
`TCCR0B` only. -/
theorem std_call_timer0 (pin prescale : Nat) (hpin : pin = 5 ∨ pin = 6) :
    (Standard.switchTimer01 (prescale % 2 ^ 8) = none ∧
      ∀ s, Standard.setPWMPrescaler s pin prescale = s) ∨
    (∃ mode, Standard.switchTimer01 (prescale % 2 ^ 8) = some mode ∧ mode < 8 ∧
      ∀ s, Standard.setPWMPrescaler s pin prescale
        = { s with TCCR0B := ((s.TCCR0B &&& 0b11111000) ||| mode) % 2 ^ 8 }) := by
  have h1 : pin % 2 ^ 8 = 5 ∨ pin % 2 ^ 8 = 6 ∨ pin % 2 ^ 8 = 9 ∨ pin % 2 ^ 8 = 10 := by
    rcases hpin with rfl | rfl <;> decide
  have h2 : pin % 2 ^ 8 = 5 ∨ pin % 2 ^ 8 = 6 := by
    rcases hpin with rfl | rfl <;> decide
  cases hsw : Standard.switchTimer01 (prescale % 2 ^ 8) with
  | none =>
    exact Or.inl ⟨rfl, fun s => by simp only [Standard.setPWMPrescaler, if_pos h1, hsw]⟩
  | some mode =>
    exact Or.inr ⟨mode, rfl, std_switchTimer01_lt hsw, fun s => by
      simp only [Standard.setPWMPrescaler, if_pos h1, hsw, if_pos h2]⟩

/-- Standard pins 9 and 10: the call is decided by the first switch and writes
`TCCR1B` only. -/
theorem std_call_timer1 (pin prescale : Nat) (hpin : pin = 9 ∨ pin = 10) :
    (Standard.switchTimer01 (prescale % 2 ^ 8) = none ∧
      ∀ s, Standard.setPWMPrescaler s pin prescale = s) ∨
    (∃ mode, Standard.switchTimer01 (prescale % 2 ^ 8) = some mode ∧ mode < 8 ∧
      ∀ s, Standard.setPWMPrescaler s pin prescale
        = { s with TCCR1B := ((s.TCCR1B &&& 0b11111000) ||| mode) % 2 ^ 8 }) := by
  have h1 : pin % 2 ^ 8 = 5 ∨ pin % 2 ^ 8 = 6 ∨ pin % 2 ^ 8 = 9 ∨ pin % 2 ^ 8 = 10 := by
    rcases hpin with rfl | rfl <;> decide
  have h2 : ¬ (pin % 2 ^ 8 = 5 ∨ pin % 2 ^ 8 = 6) := by
    rcases hpin with rfl | rfl <;> decide
  cases hsw : Standard.switchTimer01 (prescale % 2 ^ 8) with
  | none =>
    exact Or.inl ⟨rfl, fun s => by simp only [Standard.setPWMPrescaler, if_pos h1, hsw]⟩
  | some mode =>
    exact Or.inr ⟨mode, rfl, std_switchTimer01_lt hsw, fun s => by
      simp only [Standard.setPWMPrescaler, if_pos h1, hsw, if_neg h2]⟩

/-- Standard pins 3 and 11: the call is decided by the second switch and writes
`TCCR2B` only. -/
theorem std_call_timer2 (pin prescale : Nat) (hpin : pin = 3 ∨ pin = 11) :
    (Standard.switchTimer2 (prescale % 2 ^ 8) = none ∧
      ∀ s, Standard.setPWMPrescaler s pin prescale = s) ∨
    (∃ mode, Standard.switchTimer2 (prescale % 2 ^ 8) = some mode ∧ mode < 8 ∧
      ∀ s, Standard.setPWMPrescaler s pin prescale
        = { s with TCCR2B := ((s.TCCR2B &&& 0b11111000) ||| mode) % 2 ^ 8 }) := by
  have h1 : ¬ (pin % 2 ^ 8 = 5 ∨ pin % 2 ^ 8 = 6 ∨ pin % 2 ^ 8 = 9 ∨ pin % 2 ^ 8 = 10) := by
    rcases hpin with rfl | rfl <;> decide
  have h3 : pin % 2 ^ 8 = 3 ∨ pin % 2 ^ 8 = 11 := by
    rcases hpin with rfl | rfl <;> decide
  cases hsw : Standard.switchTimer2 (prescale % 2 ^ 8) with
  | none =>
    exact Or.inl ⟨rfl, fun s => by
      simp only [Standard.setPWMPrescaler, if_neg h1, if_pos h3, hsw]⟩
  | some mode =>
    exact Or.inr ⟨mode, rfl, std_switchTimer2_lt hsw, fun s => by
      simp only [Standard.setPWMPrescaler, if_neg h1, if_pos h3, hsw]⟩

/-- 32U4 pins 3 and 11: the call is decided by the first switch and writes
`TCCR0B` only, with a value computed from `TCCR1B`. -/
theorem u4_call_pins_3_11 (pin prescale : Nat) (hpin : pin = 3 ∨ pin = 11) :
    (ATmega32U4.switchFirst (prescale % 2 ^ 8) = none ∧
      ∀ s, ATmega32U4.setPWMPrescaler s pin prescale = s) ∨
    (∃ mode, ATmega32U4.switchFirst (prescale % 2 ^ 8) = some mode ∧ mode < 8 ∧
      ∀ s, ATmega32U4.setPWMPrescaler s pin prescale
        = { s with TCCR0B := ((s.TCCR1B &&& 0b11111000) ||| mode) % 2 ^ 8 }) := by
  have h1 : pin % 2 ^ 8 = 3 ∨ pin % 2 ^ 8 = 5 ∨ pin % 2 ^ 8 = 9 ∨ pin % 2 ^ 8 = 10 ∨
      pin % 2 ^ 8 = 11 := by
    rcases hpin with rfl | rfl <;> decide
  have h2 : pin % 2 ^ 8 = 3 ∨ pin % 2 ^ 8 = 11 := by
    rcases hpin with rfl | rfl <;> decide
  cases hsw : ATmega32U4.switchFirst (prescale % 2 ^ 8) with
  | none =>
    exact Or.inl ⟨rfl, fun s => by simp only [ATmega32U4.setPWMPrescaler, if_pos h1, hsw]⟩
  | some mode =>
    exact Or.inr ⟨mode, rfl, u4_switchFirst_lt hsw, fun s => by
      simp only [ATmega32U4.setPWMPrescaler, if_pos h1, hsw, if_pos h2]⟩

/-- 32U4 pins 9 and 10: the call is decided by the first switch and writes
`TCCR1B` only. -/
theorem u4_call_pins_9_10 (pin prescale : Nat) (hpin : pin = 9 ∨ pin = 10) :
    (ATmega32U4.switchFirst (prescale % 2 ^ 8) = none ∧
      ∀ s, ATmega32U4.setPWMPrescaler s pin prescale = s) ∨
    (∃ mode, ATmega32U4.switchFirst (prescale % 2 ^ 8) = some mode ∧ mode < 8 ∧
      ∀ s, ATmega32U4.setPWMPrescaler s pin prescale
        = { s with TCCR1B := ((s.TCCR1B &&& 0b11111000) ||| mode) % 2 ^ 8 }) := by
  have h1 : pin % 2 ^ 8 = 3 ∨ pin % 2 ^ 8 = 5 ∨ pin % 2 ^ 8 = 9 ∨ pin % 2 ^ 8 = 10 ∨
      pin % 2 ^ 8 = 11 := by
    rcases hpin with rfl | rfl <;> decide
  have h2 : ¬ (pin % 2 ^ 8 = 3 ∨ pin % 2 ^ 8 = 11) := by
    rcases hpin with rfl | rfl <;> decide
  have h3 : pin % 2 ^ 8 = 9 ∨ pin % 2 ^ 8 = 10 := by
    rcases hpin with rfl | rfl <;> decide
  cases hsw : ATmega32U4.switchFirst (prescale % 2 ^ 8) with
  | none =>
    exact Or.inl ⟨rfl, fun s => by simp only [ATmega32U4.setPWMPrescaler, if_pos h1, hsw]⟩
  | some mode =>
    exact Or.inr ⟨mode, rfl, u4_switchFirst_lt hsw, fun s => by
      simp only [ATmega32U4.setPWMPrescaler, if_pos h1, hsw, if_neg h2, if_pos h3]⟩

/-- 32U4 pin 5: the call is decided by the first switch and writes `TCCR3B`
only. -/
theorem u4_call_pin_5 (prescale : Nat) :
    (ATmega32U4.switchFirst (prescale % 2 ^ 8) = none ∧
      ∀ s, ATmega32U4.setPWMPrescaler s 5 prescale = s) ∨
    (∃ mode, ATmega32U4.switchFirst (prescale % 2 ^ 8) = some mode ∧ mode < 8 ∧
      ∀ s, ATmega32U4.setPWMPrescaler s 5 prescale
        = { s with TCCR3B := ((s.TCCR3B &&& 0b11111000) ||| mode) % 2 ^ 8 }) := by
  have h1 : 5 % 2 ^ 8 = 3 ∨ 5 % 2 ^ 8 = 5 ∨ 5 % 2 ^ 8 = 9 ∨ 5 % 2 ^ 8 = 10 ∨
      5 % 2 ^ 8 = 11 := by decide
  have h2 : ¬ (5 % 2 ^ 8 = 3 ∨ 5 % 2 ^ 8 = 11) := by decide
  have h3 : ¬ (5 % 2 ^ 8 = 9 ∨ 5 % 2 ^ 8 = 10) := by decide
  cases hsw : ATmega32U4.switchFirst (prescale % 2 ^ 8) with
  | none =>
    exact Or.inl ⟨rfl, fun s => by simp only [ATmega32U4.setPWMPrescaler, if_pos h1, hsw]⟩
  | some mode =>
    exact Or.inr ⟨mode, rfl, u4_switchFirst_lt hsw, fun s => by
      simp only [ATmega32U4.setPWMPrescaler, if_pos h1, hsw, if_neg h2, if_neg h3]⟩

/-- On a byte the first standard switch matches only 1, 8 and 64. -/
theorem std_switchTimer01_byte {q mode : Nat} (hq : q < 2 ^ 8)
    (h : Standard.switchTimer01 q = some mode) :
    (q = 1 ∧ mode = 1) ∨ (q = 8 ∧ mode = 2) ∨ (q = 64 ∧ mode = 3) := by
  unfold Standard.switchTimer01 at h
  split_ifs at h <;> simp at h <;> omega

/-- On a byte the second standard switch matches only 1, 8, 32, 64 and 128. -/
theorem std_switchTimer2_byte {q mode : Nat} (hq : q < 2 ^ 8)
    (h : Standard.switchTimer2 q = some mode) :
    (q = 1 ∧ mode = 1) ∨ (q = 8 ∧ mode = 2) ∨ (q = 32 ∧ mode = 3) ∨ (q = 64 ∧ mode = 4) ∨
      (q = 128 ∧ mode = 5) := by
  unfold Standard.switchTimer2 at h
  split_ifs at h <;> simp at h <;> omega

/-- On a byte the first 32U4 switch matches only 1, 8 and 64. -/
theorem u4_switchFirst_byte {q mode : Nat} (hq : q < 2 ^ 8)
    (h : ATmega32U4.switchFirst q = some mode) :
    (q = 1 ∧ mode = 1) ∨ (q = 8 ∧ mode = 2) ∨ (q = 64 ∧ mode = 3) := by
  unfold ATmega32U4.switchFirst at h
  split_ifs at h <;> simp at h <;> omega

/-- A standard call depends on the prescale argument only through its low
eight bits. -/
theorem std_setPWMPrescaler_mod (s : Standard.Regs) (pin a : Nat) :
    Standard.setPWMPrescaler s pin a = Standard.setPWMPrescaler s pin (a % 2 ^ 8) := by
  simp only [Standard.setPWMPrescaler, Nat.mod_mod]

/-- A 32U4 call depends on the prescale argument only through its low eight
bits. -/
theorem u4_setPWMPrescaler_mod (s : ATmega32U4.Regs) (pin a : Nat) :
    ATmega32U4.setPWMPrescaler s pin a = ATmega32U4.setPWMPrescaler s pin (a % 2 ^ 8) := by
  simp only [ATmega32U4.setPWMPrescaler, Nat.mod_mod]

/-- Standard calls on the timer0 pins and on the timer1 pins commute. -/
theorem std_commute_timer0_timer1 (p1 p2 d1 d2 : Nat) (h1 : p1 = 5 ∨ p1 = 6)
    (h2 : p2 = 9 ∨ p2 = 10) (s : Standard.Regs) :
    Standard.setPWMPrescaler (Standard.setPWMPrescaler s p1 d1) p2 d2
      = Standard.setPWMPrescaler (Standard.setPWMPrescaler s p2 d2) p1 d1 := by
  rcases std_call_timer0 p1 d1 h1 with ⟨_, e1⟩ | ⟨m1, _, hm1, e1⟩ <;>
    rcases std_call_timer1 p2 d2 h2 with ⟨_, e2⟩ | ⟨m2, _, hm2, e2⟩ <;>
    simp only [e1, e2]

/-- Standard calls on the timer0 pins and on the timer2 pins commute. -/
theorem std_commute_timer0_timer2 (p1 p2 d1 d2 : Nat) (h1 : p1 = 5 ∨ p1 = 6)
    (h2 : p2 = 3 ∨ p2 = 11) (s : Standard.Regs) :
    Standard.setPWMPrescaler (Standard.setPWMPrescaler s p1 d1) p2 d2
      = Standard.setPWMPrescaler (Standard.setPWMPrescaler s p2 d2) p1 d1 := by
  rcases std_call_timer0 p1 d1 h1 with ⟨_, e1⟩ | ⟨m1, _, hm1, e1⟩ <;>
    rcases std_call_timer2 p2 d2 h2 with ⟨_, e2⟩ | ⟨m2, _, hm2, e2⟩ <;>
    simp only [e1, e2]

/-- Standard calls on the timer1 pins and on the timer2 pins commute. -/
theorem std_commute_timer1_timer2 (p1 p2 d1 d2 : Nat) (h1 : p1 = 9 ∨ p1 = 10)
    (h2 : p2 = 3 ∨ p2 = 11) (s : Standard.Regs) :
    Standard.setPWMPrescaler (Standard.setPWMPrescaler s p1 d1) p2 d2
      = Standard.setPWMPrescaler (Standard.setPWMPrescaler s p2 d2) p1 d1 := by
  rcases std_call_timer1 p1 d1 h1 with ⟨_, e1⟩ | ⟨m1, _, hm1, e1⟩ <;>
    rcases std_call_timer2 p2 d2 h2 with ⟨_, e2⟩ | ⟨m2, _, hm2, e2⟩ <;>
    simp only [e1, e2]

/-- 32U4 calls on pins 3/11 and on pins 9/10 commute: the pins-9/10 store keeps
bits 3..7 of `TCCR1B`, the only bits of it that the pins-3/11 call reads. -/
theorem u4_commute_pins_3_11_pins_9_10 (p1 p2 d1 d2 : Nat) (h1 : p1 = 3 ∨ p1 = 11)
    (h2 : p2 = 9 ∨ p2 = 10) (s : ATmega32U4.Regs) :
    ATmega32U4.setPWMPrescaler (ATmega32U4.setPWMPrescaler s p1 d1) p2 d2
      = ATmega32U4.setPWMPrescaler (ATmega32U4.setPWMPrescaler s p2 d2) p1 d1 := by
  rcases u4_call_pins_3_11 p1 d1 h1 with ⟨_, e1⟩ | ⟨m1, _, hm1, e1⟩ <;>
    rcases u4_call_pins_9_10 p2 d2 h2 with ⟨_, e2⟩ | ⟨m2, _, hm2, e2⟩
  · simp only [e1, e2]
  · simp only [e1, e2]
  · simp only [e1, e2]
  · simp only [e1, e2, store3_high_bits _ _ hm2]

/-- 32U4 calls on pins 3/11 and on pin 5 commute. -/
theorem u4_commute_pins_3_11_pin_5 (p1 d1 d2 : Nat) (h1 : p1 = 3 ∨ p1 = 11)
    (s : ATmega32U4.Regs) :
    ATmega32U4.setPWMPrescaler (ATmega32U4.setPWMPrescaler s p1 d1) 5 d2
      = ATmega32U4.setPWMPrescaler (ATmega32U4.setPWMPrescaler s 5 d2) p1 d1 := by
  rcases u4_call_pins_3_11 p1 d1 h1 with ⟨_, e1⟩ | ⟨m1, _, hm1, e1⟩ <;>
    rcases u4_call_pin_5 d2 with ⟨_, e2⟩ | ⟨m2, _, hm2, e2⟩ <;>
    simp only [e1, e2]

/-- 32U4 calls on pins 9/10 and on pin 5 commute. -/
theorem u4_commute_pins_9_10_pin_5 (p1 d1 d2 : Nat) (h1 : p1 = 9 ∨ p1 = 10)
    (s : ATmega32U4.Regs) :
    ATmega32U4.setPWMPrescaler (ATmega32U4.setPWMPrescaler s p1 d1) 5 d2
      = ATmega32U4.setPWMPrescaler (ATmega32U4.setPWMPrescaler s 5 d2) p1 d1 := by
  rcases u4_call_pins_9_10 p1 d1 h1 with ⟨_, e1⟩ | ⟨m1, _, hm1, e1⟩ <;>
    rcases u4_call_pin_5 d2 with ⟨_, e2⟩ | ⟨m2, _, hm2, e2⟩ <;>
    simp only [e1, e2]

/-! ## Claims -/

/-- C1. Standard variant, timer0/timer1 table.  The claim's own scenario fails:
with `TCCR0B = 0b00000011` the call `setPWMPrescaler(5, 256)` leaves the whole
state as it was, so `TCCR0B` stays `0b00000011`, not
`(0b00000011 & 0b11111000) | 0x04 = 0b00000100`; likewise
`setPWMPrescaler(9, 1024)` does not write mode code `0x05` to `TCCR1B`.  The
`uint8_t` parameter turns the arguments 256 and 1024 into 0. -/
theorem std_timer01_divisor_256_1024_not_written :
    Standard.setPWMPrescaler ⟨0b00000011, 0, 0⟩ 5 256 = ⟨0b00000011, 0, 0⟩ ∧
    (Standard.setPWMPrescaler ⟨0b00000011, 0, 0⟩ 5 256).TCCR0B
      ≠ (0b00000011 &&& 0b11111000) ||| 0x04 ∧
    Standard.setPWMPrescaler ⟨0, 0, 0⟩ 9 1024 = ⟨0, 0, 0⟩ ∧
    (Standard.setPWMPrescaler ⟨0, 0, 0⟩ 9 1024).TCCR1B ≠ (0 &&& 0b11111000) ||| 0x05 := by
  decide

/-- C2. Standard variant, timer2 table.  With `TCCR2B = 0` the calls
`setPWMPrescaler(3, 256)` and `setPWMPrescaler(11, 1024)` leave the whole state
as it was, so `TCCR2B` does not become `(0 & 0b11111000) | 0x06` resp.
`(0 & 0b11111000) | 0x07`: the `uint8_t` parameter turns the arguments 256 and
1024 into 0, which no case label matches. -/
theorem std_timer2_divisor_256_1024_not_written :
    Standard.setPWMPrescaler ⟨0, 0, 0⟩ 3 256 = ⟨0, 0, 0⟩ ∧
    (Standard.setPWMPrescaler ⟨0, 0, 0⟩ 3 256).TCCR2B ≠ (0 &&& 0b11111000) ||| 0x06 ∧
    Standard.setPWMPrescaler ⟨0, 0, 0⟩ 11 1024 = ⟨0, 0, 0⟩ ∧
    (Standard.setPWMPrescaler ⟨0, 0, 0⟩ 11 1024).TCCR2B ≠ (0 &&& 0b11111000) ||| 0x07 := by
  decide

/-- C3, as stated, is false.  With all registers 0, `setPWMPrescaler(3, 1)`
(divisor `2^0`) leaves `TCCR4B = 0`, not `(0 & 0b11110000) | 1`; it writes
`TCCR0B` instead.  The claim's own scenario `setPWMPrescaler(11, 4096)` leaves
`TCCR4B = 0` as well, not a low nibble of `0x0D`. -/
theorem u4_pins_3_11_TCCR4B_counterexample :
    (ATmega32U4.setPWMPrescaler ⟨0, 0, 0, 0⟩ 3 (2 ^ 0)).TCCR4B
      ≠ (0 &&& 0b11110000) ||| (0 + 1) ∧
    ATmega32U4.setPWMPrescaler ⟨0, 0, 0, 0⟩ 3 (2 ^ 0) = ⟨1, 0, 0, 0⟩ ∧
    (ATmega32U4.setPWMPrescaler ⟨0, 0, 0, 0⟩ 11 4096).TCCR4B % 16 ≠ 0x0D := by
  decide

/-- C3, amended.  Enhanced variant: for every initial register state, pin 3 or
11, and every power-of-two divisor `2^k` with `0 ≤ k ≤ 14` passed as the
prescale argument, `TCCR4B` after the call equals `TCCR4B` before it: pins 3
and 11 are served by the first branch, which does not write `TCCR4B`. -/
theorem u4_pins_3_11_leave_TCCR4B (s : ATmega32U4.Regs) (pin k : Nat)
    (hpin : pin = 3 ∨ pin = 11) (_hk : k ≤ 14) :
    (ATmega32U4.setPWMPrescaler s pin (2 ^ k)).TCCR4B = s.TCCR4B := by
  rcases hpin with rfl | rfl <;> exact u4_setPWMPrescaler_TCCR4B s _ (2 ^ k)

/-- Witness for `u4_pins_3_11_leave_TCCR4B`: pin 11, divisor `2^12 = 4096`,
`TCCR4B = 0xA5`. -/
theorem u4_pins_3_11_leave_TCCR4B_witness :
    (11 = 3 ∨ 11 = 11) ∧ 12 ≤ 14 ∧
    (ATmega32U4.setPWMPrescaler ⟨0, 0, 0, 0xA5⟩ 11 (2 ^ 12)).TCCR4B = 0xA5 :=
  ⟨by decide, by decide, u4_pins_3_11_leave_TCCR4B ⟨0, 0, 0, 0xA5⟩ 11 12 (by decide) (by decide)⟩

/-- Invalid divisors below `2^8` are silent no-ops, in both variants.  For every
initial register state, every recognised pin and every `d < 2^8` that is not
in the valid set of the pin's timer group, the complete register state after
the call equals the state before it.  The bound cannot be dropped: the
argument 257 reaches the switch as 1. -/
theorem invalid_byte_divisor_is_noop (sS : Standard.Regs) (sU : ATmega32U4.Regs) (pin d : Nat)
    (hd : d < 2 ^ 8) :
    ((pin = 5 ∨ pin = 6 ∨ pin = 9 ∨ pin = 10) →
      (d ≠ 1 ∧ d ≠ 8 ∧ d ≠ 64 ∧ d ≠ 256 ∧ d ≠ 1024) →
      Standard.setPWMPrescaler sS pin d = sS) ∧
    ((pin = 3 ∨ pin = 11) →
      (d ≠ 1 ∧ d ≠ 8 ∧ d ≠ 32 ∧ d ≠ 64 ∧ d ≠ 128 ∧ d ≠ 256 ∧ d ≠ 1024) →
      Standard.setPWMPrescaler sS pin d = sS) ∧
    ((pin = 3 ∨ pin = 5 ∨ pin = 9 ∨ pin = 10 ∨ pin = 11) →
      (d ≠ 1 ∧ d ≠ 8 ∧ d ≠ 64 ∧ d ≠ 256 ∧ d ≠ 1024) →
      ATmega32U4.setPWMPrescaler sU pin d = sU) := by
  have hmod : d % 256 = d := Nat.mod_eq_of_lt hd
  refine ⟨?_, ?_, ?_⟩
  · rintro (rfl | rfl | rfl | rfl) ⟨h1, h8, h64, h256, h1024⟩ <;>
      simp [Standard.setPWMPrescaler, Standard.switchTimer01, hmod, h1, h8, h64, h256, h1024]
  · rintro (rfl | rfl) ⟨h1, h8, h32, h64, h128, h256, h1024⟩ <;>
      simp [Standard.setPWMPrescaler, Standard.switchTimer2, hmod, h1, h8, h32, h64, h128,
        h256, h1024]
  · rintro (rfl | rfl | rfl | rfl | rfl) ⟨h1, h8, h64, h256, h1024⟩ <;>
      simp [ATmega32U4.setPWMPrescaler, ATmega32U4.switchFirst, hmod, h1, h8, h64, h256,
        h1024]

/-- Witness for `invalid_byte_divisor_is_noop`: pin 9 with divisor 3 in both variants,
and pin 3 with divisor 16 in the standard variant. -/
theorem invalid_byte_divisor_is_noop_witness :
    (3 : Nat) < 2 ^ 8 ∧
    Standard.setPWMPrescaler ⟨0xC3, 0x1A, 0x07⟩ 9 3 = ⟨0xC3, 0x1A, 0x07⟩ ∧
    ATmega32U4.setPWMPrescaler ⟨0xC3, 0x1A, 0x07, 0x0F⟩ 9 3 = ⟨0xC3, 0x1A, 0x07, 0x0F⟩ ∧
    Standard.setPWMPrescaler ⟨0xC3, 0x1A, 0x07⟩ 3 16 = ⟨0xC3, 0x1A, 0x07⟩ :=
  ⟨by decide,
   (invalid_byte_divisor_is_noop ⟨0xC3, 0x1A, 0x07⟩ ⟨0xC3, 0x1A, 0x07, 0x0F⟩ 9 3 (by decide)).1
     (by decide) (by decide),
   (invalid_byte_divisor_is_noop ⟨0xC3, 0x1A, 0x07⟩ ⟨0xC3, 0x1A, 0x07, 0x0F⟩ 9 3 (by decide)).2.2
     (by decide) (by decide),
   (invalid_byte_divisor_is_noop ⟨0xC3, 0x1A, 0x07⟩ ⟨0xC3, 0x1A, 0x07, 0x0F⟩ 3 16 (by decide)).2.1
     (by decide) (by decide)⟩

/-- C4. Invalid divisor is a silent no-op, in both variants.  The claim fails
for a divisor outside the valid set whose low eight bits are a case label.
With `TCCR0B = 0xC3`, `TCCR1B = 0x1A`, the call `setPWMPrescaler(9, 257)`
changes `TCCR1B` to `(0x1A & 0b11111000) | 0x01 = 0x19` in both variants,
although 257 is none of 1, 8, 64, 256, 1024; in the standard variant
`setPWMPrescaler(3, 288)` changes `TCCR2B` from `0x07` to `0x03`, although 288
is none of 1, 8, 32, 64, 128, 256, 1024.  The `uint8_t` parameter turns 257
into 1 and 288 into 32. -/
theorem invalid_divisor_257_is_written :
    (257 ≠ 1 ∧ 257 ≠ 8 ∧ 257 ≠ 64 ∧ 257 ≠ 256 ∧ 257 ≠ 1024) ∧
    Standard.setPWMPrescaler ⟨0xC3, 0x1A, 0x07⟩ 9 257 = ⟨0xC3, 0x19, 0x07⟩ ∧
    Standard.setPWMPrescaler ⟨0xC3, 0x1A, 0x07⟩ 9 257 ≠ ⟨0xC3, 0x1A, 0x07⟩ ∧
    ATmega32U4.setPWMPrescaler ⟨0xC3, 0x1A, 0x07, 0x0F⟩ 9 257 = ⟨0xC3, 0x19, 0x07, 0x0F⟩ ∧
    ATmega32U4.setPWMPrescaler ⟨0xC3, 0x1A, 0x07, 0x0F⟩ 9 257 ≠ ⟨0xC3, 0x1A, 0x07, 0x0F⟩ ∧
    (288 ≠ 1 ∧ 288 ≠ 8 ∧ 288 ≠ 32 ∧ 288 ≠ 64 ∧ 288 ≠ 128 ∧ 288 ≠ 256 ∧ 288 ≠ 1024) ∧
    Standard.setPWMPrescaler ⟨0xC3, 0x1A, 0x07⟩ 3 288 = ⟨0xC3, 0x1A, 0x03⟩ ∧
    Standard.setPWMPrescaler ⟨0xC3, 0x1A, 0x07⟩ 3 288 ≠ ⟨0xC3, 0x1A, 0x07⟩ := by
  decide

/-- C5. Unrecognised pin is a silent no-op, in both variants.  For every
initial register state, every divisor, and every value `pin` of the `uint8_t`
pin parameter outside the variant's recognised set (standard `{3,5,6,9,10,11}`,
enhanced `{3,5,9,10,11}`), the complete register state after the call equals
the state before it. -/
theorem unrecognised_pin_is_noop (sS : Standard.Regs) (sU : ATmega32U4.Regs)
    (pin prescale : Nat) (hpin : pin < 2 ^ 8) :
    ((pin ≠ 3 ∧ pin ≠ 5 ∧ pin ≠ 6 ∧ pin ≠ 9 ∧ pin ≠ 10 ∧ pin ≠ 11) →
      Standard.setPWMPrescaler sS pin prescale = sS) ∧
    ((pin ≠ 3 ∧ pin ≠ 5 ∧ pin ≠ 9 ∧ pin ≠ 10 ∧ pin ≠ 11) →
      ATmega32U4.setPWMPrescaler sU pin prescale = sU) := by
  have hmod : pin % 256 = pin := Nat.mod_eq_of_lt hpin
  constructor
  · rintro ⟨h3, h5, h6, h9, h10, h11⟩
    simp [Standard.setPWMPrescaler, hmod, h3, h5, h6, h9, h10, h11]
  · rintro ⟨h3, h5, h9, h10, h11⟩
    simp [ATmega32U4.setPWMPrescaler, hmod, h3, h5, h9, h10, h11]

/-- Witness for `unrecognised_pin_is_noop`: pin 2 with divisor 64 in both
variants. -/
theorem unrecognised_pin_is_noop_witness :
    (2 : Nat) < 2 ^ 8 ∧
    Standard.setPWMPrescaler ⟨0xC3, 0x1A, 0x07⟩ 2 64 = ⟨0xC3, 0x1A, 0x07⟩ ∧
    ATmega32U4.setPWMPrescaler ⟨0xC3, 0x1A, 0x07, 0x0F⟩ 2 64 = ⟨0xC3, 0x1A, 0x07, 0x0F⟩ :=
  ⟨by decide,
   (unrecognised_pin_is_noop ⟨0xC3, 0x1A, 0x07⟩ ⟨0xC3, 0x1A, 0x07, 0x0F⟩ 2 64 (by decide)).1
     (by decide),
   (unrecognised_pin_is_noop ⟨0xC3, 0x1A, 0x07⟩ ⟨0xC3, 0x1A, 0x07, 0x0F⟩ 2 64 (by decide)).2
     (by decide)⟩

/-- C6. Standard variant, high bits preserved.  For every initial register
state, every pin and every divisor, bits 3..7 (the value under the mask
`0b11111000`) of each of `TCCR0B`, `TCCR1B` and `TCCR2B` after the call equal
the same bits before the call. -/
theorem std_high_bits_preserved (s : Standard.Regs) (pin prescale : Nat) :
    (Standard.setPWMPrescaler s pin prescale).TCCR0B &&& 0b11111000
      = s.TCCR0B &&& 0b11111000 ∧
    (Standard.setPWMPrescaler s pin prescale).TCCR1B &&& 0b11111000
      = s.TCCR1B &&& 0b11111000 ∧
    (Standard.setPWMPrescaler s pin prescale).TCCR2B &&& 0b11111000
      = s.TCCR2B &&& 0b11111000 := by
  rcases std_setPWMPrescaler_cases pin prescale with
    h | ⟨mode, hm, h⟩ | ⟨mode, hm, h⟩ | ⟨mode, hm, h⟩ <;> rw [h s]
  · exact ⟨rfl, rfl, rfl⟩
  · exact ⟨store3_high_bits _ _ hm, rfl, rfl⟩
  · exact ⟨rfl, store3_high_bits _ _ hm, rfl⟩
  · exact ⟨rfl, rfl, store3_high_bits _ _ hm⟩

/-- C7. Enhanced variant, high bits of `TCCR0B`.  With `TCCR0B = 0b11000000`
and the other registers 0, `setPWMPrescaler(3, 1)` leaves `TCCR0B = 0b00000001`:
the new value is computed from `TCCR1B`, so bits 6 and 7 of `TCCR0B` are lost
instead of preserved. -/
theorem u4_TCCR0B_high_bits_lost :
    ATmega32U4.setPWMPrescaler ⟨0b11000000, 0, 0, 0⟩ 3 1 = ⟨0b00000001, 0, 0, 0⟩ ∧
    (ATmega32U4.setPWMPrescaler ⟨0b11000000, 0, 0, 0⟩ 3 1).TCCR0B &&& 0b11111000
      ≠ 0b11000000 &&& 0b11111000 := by
  decide

/-- C8. Paired-pin property, in both variants.  For every initial register
state and every divisor `d`, the two pins of a documented pair (standard 5/6,
9/10, 3/11; enhanced 3/11, 9/10) produce the identical complete register
state. -/
theorem paired_pins_same_state (sS : Standard.Regs) (sU : ATmega32U4.Regs) (d : Nat) :
    Standard.setPWMPrescaler sS 5 d = Standard.setPWMPrescaler sS 6 d ∧
    Standard.setPWMPrescaler sS 9 d = Standard.setPWMPrescaler sS 10 d ∧
    Standard.setPWMPrescaler sS 3 d = Standard.setPWMPrescaler sS 11 d ∧
    ATmega32U4.setPWMPrescaler sU 3 d = ATmega32U4.setPWMPrescaler sU 11 d ∧
    ATmega32U4.setPWMPrescaler sU 9 d = ATmega32U4.setPWMPrescaler sU 10 d := by
  refine ⟨?_, ?_, ?_, ?_, ?_⟩ <;>
    simp [Standard.setPWMPrescaler, ATmega32U4.setPWMPrescaler]

/-- C9. Idempotence, in both variants.  For every initial register state and
every pin and divisor, applying `setPWMPrescaler(pin, divisor)` twice in a row
yields the same complete register state as applying it once. -/
theorem setPWMPrescaler_idempotent (sS : Standard.Regs) (sU : ATmega32U4.Regs)
    (pin prescale : Nat) :
    Standard.setPWMPrescaler (Standard.setPWMPrescaler sS pin prescale) pin prescale
      = Standard.setPWMPrescaler sS pin prescale ∧
    ATmega32U4.setPWMPrescaler (ATmega32U4.setPWMPrescaler sU pin prescale) pin prescale
      = ATmega32U4.setPWMPrescaler sU pin prescale := by
  constructor
  · rcases std_setPWMPrescaler_cases pin prescale with
      h | ⟨mode, hm, h⟩ | ⟨mode, hm, h⟩ | ⟨mode, hm, h⟩
    · simp only [h]
    all_goals simp only [h, store3_idem _ _ hm]
  · rcases u4_setPWMPrescaler_cases pin prescale with
      h | ⟨mode, hm, h⟩ | ⟨mode, hm, h⟩ | ⟨mode, hm, h⟩
    · simp only [h]
    all_goals simp only [h, store3_idem _ _ hm]

/-- C10. Enhanced variant, group A table for pins 5, 9 and 10.  With all
registers 0, `setPWMPrescaler(9, 256)` and `setPWMPrescaler(5, 1024)` leave the
whole state as it was, so `TCCR1B` does not become `(0 & 0b11111000) | 0x04`
and `TCCR3B` does not become `(0 & 0b11111000) | 0x05`: the `uint8_t` parameter
turns the arguments 256 and 1024 into 0, which no case label matches. -/
theorem u4_groupA_divisor_256_1024_not_written :
    ATmega32U4.setPWMPrescaler ⟨0, 0, 0, 0⟩ 9 256 = ⟨0, 0, 0, 0⟩ ∧
    (ATmega32U4.setPWMPrescaler ⟨0, 0, 0, 0⟩ 9 256).TCCR1B ≠ (0 &&& 0b11111000) ||| 0x04 ∧
    ATmega32U4.setPWMPrescaler ⟨0, 0, 0, 0⟩ 5 1024 = ⟨0, 0, 0, 0⟩ ∧
    (ATmega32U4.setPWMPrescaler ⟨0, 0, 0, 0⟩ 5 1024).TCCR3B ≠ (0 &&& 0b11111000) ||| 0x05 := by
  decide

/-- C11. Enhanced variant, pins 3 and 11.  For every initial register state and
every call with pin 3 or 11 whose prescale argument is matched by the first
switch with mode code `m`, the state after the call has
`TCCR0B = (old TCCR1B & 0b11111000) | m`, computed from `TCCR1B` and not from
`TCCR0B`, while `TCCR1B`, `TCCR3B` and `TCCR4B` are unchanged. -/
theorem u4_pins_3_11_write_TCCR0B_from_TCCR1B (s : ATmega32U4.Regs) (pin prescale m : Nat)
    (hpin : pin = 3 ∨ pin = 11)
    (hsw : ATmega32U4.switchFirst (prescale % 2 ^ 8) = some m) :
    (ATmega32U4.setPWMPrescaler s pin prescale).TCCR0B = (s.TCCR1B &&& 0b11111000) ||| m ∧
    (ATmega32U4.setPWMPrescaler s pin prescale).TCCR1B = s.TCCR1B ∧
    (ATmega32U4.setPWMPrescaler s pin prescale).TCCR3B = s.TCCR3B ∧
    (ATmega32U4.setPWMPrescaler s pin prescale).TCCR4B = s.TCCR4B := by
  rcases u4_call_pins_3_11 pin prescale hpin with ⟨hnone, _⟩ | ⟨mode, hsome, hm, h⟩
  · rw [hnone] at hsw
    cases hsw
  · rw [hsome] at hsw
    cases hsw
    rw [h s]
    exact ⟨store3_eq _ _ hm, rfl, rfl, rfl⟩

/-- Witness for `u4_pins_3_11_write_TCCR0B_from_TCCR1B`: pin 11, divisor 64
(mode code 3), `TCCR0B = 0xC7`, `TCCR1B = 0xA5`: `TCCR0B` becomes `0xA3`. -/
theorem u4_pins_3_11_write_TCCR0B_from_TCCR1B_witness :
    ATmega32U4.switchFirst (64 % 2 ^ 8) = some 3 ∧
    (ATmega32U4.setPWMPrescaler ⟨0xC7, 0xA5, 0x11, 0x0F⟩ 11 64).TCCR0B
      = (0xA5 &&& 0b11111000) ||| 3 ∧
    (ATmega32U4.setPWMPrescaler ⟨0xC7, 0xA5, 0x11, 0x0F⟩ 11 64).TCCR1B = 0xA5 ∧
    (ATmega32U4.setPWMPrescaler ⟨0xC7, 0xA5, 0x11, 0x0F⟩ 11 64).TCCR3B = 0x11 ∧
    (ATmega32U4.setPWMPrescaler ⟨0xC7, 0xA5, 0x11, 0x0F⟩ 11 64).TCCR4B = 0x0F :=
  ⟨by decide,
   u4_pins_3_11_write_TCCR0B_from_TCCR1B ⟨0xC7, 0xA5, 0x11, 0x0F⟩ 11 64 3
     (by decide) (by decide)⟩

/-- C12. Enhanced variant, timer4 pins 6 and 13 as documented in the source.
With all registers 0, `setPWMPrescaler(6, 1)` and `setPWMPrescaler(13, 1)`
(divisor `2^0`) leave the whole state as it was, so `TCCR4B` stays 0 and does
not become `(0 & 0b11110000) | 1`; the same holds for `setPWMPrescaler(6, 64)`
(divisor `2^6`, expected code 7).  No branch of the function accepts pin 6 or
13. -/
theorem u4_pins_6_13_timer4_not_written :
    ATmega32U4.setPWMPrescaler ⟨0, 0, 0, 0⟩ 6 (2 ^ 0) = ⟨0, 0, 0, 0⟩ ∧
    (ATmega32U4.setPWMPrescaler ⟨0, 0, 0, 0⟩ 6 (2 ^ 0)).TCCR4B
      ≠ (0 &&& 0b11110000) ||| (0 + 1) ∧
    ATmega32U4.setPWMPrescaler ⟨0, 0, 0, 0⟩ 13 (2 ^ 0) = ⟨0, 0, 0, 0⟩ ∧
    (ATmega32U4.setPWMPrescaler ⟨0, 0, 0, 0⟩ 13 (2 ^ 0)).TCCR4B
      ≠ (0 &&& 0b11110000) ||| (0 + 1) ∧
    (ATmega32U4.setPWMPrescaler ⟨0, 0, 0, 0⟩ 6 (2 ^ 6)).TCCR4B
      ≠ (0 &&& 0b11110000) ||| (6 + 1) := by
  decide

/-- C13. Single-register frame, in both variants.  For every initial register
state, pin and divisor, the call changes at most the one control register
owned by the pin's timer group and leaves every other register unchanged:
standard pins 5/6 only `TCCR0B`, 9/10 only `TCCR1B`, 3/11 only `TCCR2B`;
enhanced pins 3/11 only `TCCR0B`, 9/10 only `TCCR1B`, 5 only `TCCR3B`; and for
every pin whatsoever at most one register differs from its value before the
call. -/
theorem single_register_frame (sS : Standard.Regs) (sU : ATmega32U4.Regs)
    (pin prescale : Nat) :
    ((pin = 5 ∨ pin = 6) →
      (Standard.setPWMPrescaler sS pin prescale).TCCR1B = sS.TCCR1B ∧
      (Standard.setPWMPrescaler sS pin prescale).TCCR2B = sS.TCCR2B) ∧
    ((pin = 9 ∨ pin = 10) →
      (Standard.setPWMPrescaler sS pin prescale).TCCR0B = sS.TCCR0B ∧
      (Standard.setPWMPrescaler sS pin prescale).TCCR2B = sS.TCCR2B) ∧
    ((pin = 3 ∨ pin = 11) →
      (Standard.setPWMPrescaler sS pin prescale).TCCR0B = sS.TCCR0B ∧
      (Standard.setPWMPrescaler sS pin prescale).TCCR1B = sS.TCCR1B) ∧
    ((pin = 3 ∨ pin = 11) →
      (ATmega32U4.setPWMPrescaler sU pin prescale).TCCR1B = sU.TCCR1B ∧
      (ATmega32U4.setPWMPrescaler sU pin prescale).TCCR3B = sU.TCCR3B ∧
      (ATmega32U4.setPWMPrescaler sU pin prescale).TCCR4B = sU.TCCR4B) ∧
    ((pin = 9 ∨ pin = 10) →
      (ATmega32U4.setPWMPrescaler sU pin prescale).TCCR0B = sU.TCCR0B ∧
      (ATmega32U4.setPWMPrescaler sU pin prescale).TCCR3B = sU.TCCR3B ∧
      (ATmega32U4.setPWMPrescaler sU pin prescale).TCCR4B = sU.TCCR4B) ∧
    (pin = 5 →
      (ATmega32U4.setPWMPrescaler sU pin prescale).TCCR0B = sU.TCCR0B ∧
      (ATmega32U4.setPWMPrescaler sU pin prescale).TCCR1B = sU.TCCR1B ∧
      (ATmega32U4.setPWMPrescaler sU pin prescale).TCCR4B = sU.TCCR4B) ∧
    (((Standard.setPWMPrescaler sS pin prescale).TCCR1B = sS.TCCR1B ∧
        (Standard.setPWMPrescaler sS pin prescale).TCCR2B = sS.TCCR2B) ∨
      ((Standard.setPWMPrescaler sS pin prescale).TCCR0B = sS.TCCR0B ∧
        (Standard.setPWMPrescaler sS pin prescale).TCCR2B = sS.TCCR2B) ∨
      ((Standard.setPWMPrescaler sS pin prescale).TCCR0B = sS.TCCR0B ∧
        (Standard.setPWMPrescaler sS pin prescale).TCCR1B = sS.TCCR1B)) ∧
    (((ATmega32U4.setPWMPrescaler sU pin prescale).TCCR1B = sU.TCCR1B ∧
        (ATmega32U4.setPWMPrescaler sU pin prescale).TCCR3B = sU.TCCR3B ∧
        (ATmega32U4.setPWMPrescaler sU pin prescale).TCCR4B = sU.TCCR4B) ∨
      ((ATmega32U4.setPWMPrescaler sU pin prescale).TCCR0B = sU.TCCR0B ∧
        (ATmega32U4.setPWMPrescaler sU pin prescale).TCCR3B = sU.TCCR3B ∧
        (ATmega32U4.setPWMPrescaler sU pin prescale).TCCR4B = sU.TCCR4B) ∨
      ((ATmega32U4.setPWMPrescaler sU pin prescale).TCCR0B = sU.TCCR0B ∧
        (ATmega32U4.setPWMPrescaler sU pin prescale).TCCR1B = sU.TCCR1B ∧
        (ATmega32U4.setPWMPrescaler sU pin prescale).TCCR4B = sU.TCCR4B)) := by
  refine ⟨?_, ?_, ?_, ?_, ?_, ?_, ?_, ?_⟩
  · intro hp
    rcases std_call_timer0 pin prescale hp with ⟨_, h⟩ | ⟨mode, _, _, h⟩ <;> rw [h sS] <;>
      exact ⟨rfl, rfl⟩
  · intro hp
    rcases std_call_timer1 pin prescale hp with ⟨_, h⟩ | ⟨mode, _, _, h⟩ <;> rw [h sS] <;>
      exact ⟨rfl, rfl⟩
  · intro hp
    rcases std_call_timer2 pin prescale hp with ⟨_, h⟩ | ⟨mode, _, _, h⟩ <;> rw [h sS] <;>
      exact ⟨rfl, rfl⟩
  · intro hp
    rcases u4_call_pins_3_11 pin prescale hp with ⟨_, h⟩ | ⟨mode, _, _, h⟩ <;> rw [h sU] <;>
      exact ⟨rfl, rfl, rfl⟩
  · intro hp
    rcases u4_call_pins_9_10 pin prescale hp with ⟨_, h⟩ | ⟨mode, _, _, h⟩ <;> rw [h sU] <;>
      exact ⟨rfl, rfl, rfl⟩
  · rintro rfl
    rcases u4_call_pin_5 prescale with ⟨_, h⟩ | ⟨mode, _, _, h⟩ <;> rw [h sU] <;>
      exact ⟨rfl, rfl, rfl⟩
  · rcases std_setPWMPrescaler_cases pin prescale with
      h | ⟨mode, _, h⟩ | ⟨mode, _, h⟩ | ⟨mode, _, h⟩ <;> rw [h sS]
    · exact Or.inl ⟨rfl, rfl⟩
    · exact Or.inl ⟨rfl, rfl⟩
    · exact Or.inr (Or.inl ⟨rfl, rfl⟩)
    · exact Or.inr (Or.inr ⟨rfl, rfl⟩)
  · rcases u4_setPWMPrescaler_cases pin prescale with
      h | ⟨mode, _, h⟩ | ⟨mode, _, h⟩ | ⟨mode, _, h⟩ <;> rw [h sU]
    · exact Or.inl ⟨rfl, rfl, rfl⟩
    · exact Or.inl ⟨rfl, rfl, rfl⟩
    · exact Or.inr (Or.inl ⟨rfl, rfl, rfl⟩)
    · exact Or.inr (Or.inr ⟨rfl, rfl, rfl⟩)

/-- Witness for `single_register_frame`: pin 5 with divisor 8 in both variants
(standard writes `TCCR0B`, enhanced writes `TCCR3B`), and pin 11 with divisor 1
(standard writes `TCCR2B`, enhanced writes `TCCR0B`). -/
theorem single_register_frame_witness :
    ((Standard.setPWMPrescaler ⟨0xC7, 0xA5, 0x11⟩ 5 8).TCCR1B = 0xA5 ∧
      (Standard.setPWMPrescaler ⟨0xC7, 0xA5, 0x11⟩ 5 8).TCCR2B = 0x11) ∧
    ((ATmega32U4.setPWMPrescaler ⟨0xC7, 0xA5, 0x11, 0x0F⟩ 5 8).TCCR0B = 0xC7 ∧
      (ATmega32U4.setPWMPrescaler ⟨0xC7, 0xA5, 0x11, 0x0F⟩ 5 8).TCCR1B = 0xA5 ∧
      (ATmega32U4.setPWMPrescaler ⟨0xC7, 0xA5, 0x11, 0x0F⟩ 5 8).TCCR4B = 0x0F) ∧
    ((Standard.setPWMPrescaler ⟨0xC7, 0xA5, 0x11⟩ 11 1).TCCR0B = 0xC7 ∧
      (Standard.setPWMPrescaler ⟨0xC7, 0xA5, 0x11⟩ 11 1).TCCR1B = 0xA5) ∧
    ((ATmega32U4.setPWMPrescaler ⟨0xC7, 0xA5, 0x11, 0x0F⟩ 11 1).TCCR1B = 0xA5 ∧
      (ATmega32U4.setPWMPrescaler ⟨0xC7, 0xA5, 0x11, 0x0F⟩ 11 1).TCCR3B = 0x11 ∧
      (ATmega32U4.setPWMPrescaler ⟨0xC7, 0xA5, 0x11, 0x0F⟩ 11 1).TCCR4B = 0x0F) :=
  ⟨(single_register_frame ⟨0xC7, 0xA5, 0x11⟩ ⟨0xC7, 0xA5, 0x11, 0x0F⟩ 5 8).1 (by decide),
   (single_register_frame ⟨0xC7, 0xA5, 0x11⟩ ⟨0xC7, 0xA5, 0x11, 0x0F⟩ 5 8).2.2.2.2.2.1
     (by decide),
   (single_register_frame ⟨0xC7, 0xA5, 0x11⟩ ⟨0xC7, 0xA5, 0x11, 0x0F⟩ 11 1).2.2.1 (by decide),
   (single_register_frame ⟨0xC7, 0xA5, 0x11⟩ ⟨0xC7, 0xA5, 0x11, 0x0F⟩ 11 1).2.2.2.1
     (by decide)⟩

/-- C14. Effect of the 8-bit prescale parameter, in both variants.  A call
depends on its prescale argument only through the low eight bits, so the
arguments 256 and 1024 are no-ops.  For every initial register state and every
8-bit prescale value `p`, the state is unchanged unless `p` is a case label
below 256 of the pin's switch (standard: 1, 8, 64 for pins 5, 6, 9, 10 and
1, 8, 32, 64, 128 for pins 3, 11; enhanced: 1, 8, 64 for pins 3, 5, 9, 10,
11); and when `p` is such a label the low three bits of the written register
are in `{1,2,3}` (in `{1,..,5}` for the standard `TCCR2B`), never the codes of
256 and 1024. -/
theorem prescale_parameter_is_8bit (sS : Standard.Regs) (sU : ATmega32U4.Regs)
    (pin p : Nat) (hp : p < 2 ^ 8) :
    ((pin = 5 ∨ pin = 6 ∨ pin = 9 ∨ pin = 10) → (p ≠ 1 ∧ p ≠ 8 ∧ p ≠ 64) →
      Standard.setPWMPrescaler sS pin p = sS) ∧
    ((pin = 3 ∨ pin = 11) → (p ≠ 1 ∧ p ≠ 8 ∧ p ≠ 32 ∧ p ≠ 64 ∧ p ≠ 128) →
      Standard.setPWMPrescaler sS pin p = sS) ∧
    ((pin = 3 ∨ pin = 5 ∨ pin = 9 ∨ pin = 10 ∨ pin = 11) → (p ≠ 1 ∧ p ≠ 8 ∧ p ≠ 64) →
      ATmega32U4.setPWMPrescaler sU pin p = sU) ∧
    ((pin = 5 ∨ pin = 6) → (p = 1 ∨ p = 8 ∨ p = 64) →
      (Standard.setPWMPrescaler sS pin p).TCCR0B % 8 = 1 ∨
      (Standard.setPWMPrescaler sS pin p).TCCR0B % 8 = 2 ∨
      (Standard.setPWMPrescaler sS pin p).TCCR0B % 8 = 3) ∧
    ((pin = 9 ∨ pin = 10) → (p = 1 ∨ p = 8 ∨ p = 64) →
      (Standard.setPWMPrescaler sS pin p).TCCR1B % 8 = 1 ∨
      (Standard.setPWMPrescaler sS pin p).TCCR1B % 8 = 2 ∨
      (Standard.setPWMPrescaler sS pin p).TCCR1B % 8 = 3) ∧
    ((pin = 3 ∨ pin = 11) → (p = 1 ∨ p = 8 ∨ p = 32 ∨ p = 64 ∨ p = 128) →
      1 ≤ (Standard.setPWMPrescaler sS pin p).TCCR2B % 8 ∧
      (Standard.setPWMPrescaler sS pin p).TCCR2B % 8 ≤ 5) ∧
    ((pin = 3 ∨ pin = 11) → (p = 1 ∨ p = 8 ∨ p = 64) →
      (ATmega32U4.setPWMPrescaler sU pin p).TCCR0B % 8 = 1 ∨
      (ATmega32U4.setPWMPrescaler sU pin p).TCCR0B % 8 = 2 ∨
      (ATmega32U4.setPWMPrescaler sU pin p).TCCR0B % 8 = 3) ∧
    ((pin = 9 ∨ pin = 10) → (p = 1 ∨ p = 8 ∨ p = 64) →
      (ATmega32U4.setPWMPrescaler sU pin p).TCCR1B % 8 = 1 ∨
      (ATmega32U4.setPWMPrescaler sU pin p).TCCR1B % 8 = 2 ∨
      (ATmega32U4.setPWMPrescaler sU pin p).TCCR1B % 8 = 3) ∧
    (pin = 5 → (p = 1 ∨ p = 8 ∨ p = 64) →
      (ATmega32U4.setPWMPrescaler sU pin p).TCCR3B % 8 = 1 ∨
      (ATmega32U4.setPWMPrescaler sU pin p).TCCR3B % 8 = 2 ∨
      (ATmega32U4.setPWMPrescaler sU pin p).TCCR3B % 8 = 3) ∧
    (∀ a, Standard.setPWMPrescaler sS pin a = Standard.setPWMPrescaler sS pin (a % 2 ^ 8)) ∧
    (∀ a, ATmega32U4.setPWMPrescaler sU pin a
      = ATmega32U4.setPWMPrescaler sU pin (a % 2 ^ 8)) ∧
    Standard.setPWMPrescaler sS pin 256 = sS ∧
    Standard.setPWMPrescaler sS pin 1024 = sS ∧
    ATmega32U4.setPWMPrescaler sU pin 256 = sU ∧
    ATmega32U4.setPWMPrescaler sU pin 1024 = sU := by
  have hmod : p % 2 ^ 8 = p := Nat.mod_eq_of_lt hp
  refine ⟨?_, ?_, ?_, ?_, ?_, ?_, ?_, ?_, ?_, ?_, ?_, ?_, ?_, ?_, ?_⟩
  · intro hpin hne
    rcases hpin with h | h | h | h
    · rcases std_call_timer0 pin p (Or.inl h) with ⟨_, hid⟩ | ⟨mode, hsome, _, _⟩
      · exact hid sS
      · rw [hmod] at hsome
        have := std_switchTimer01_byte hp hsome
        omega
    · rcases std_call_timer0 pin p (Or.inr h) with ⟨_, hid⟩ | ⟨mode, hsome, _, _⟩
      · exact hid sS
      · rw [hmod] at hsome
        have := std_switchTimer01_byte hp hsome
        omega
    · rcases std_call_timer1 pin p (Or.inl h) with ⟨_, hid⟩ | ⟨mode, hsome, _, _⟩
      · exact hid sS
      · rw [hmod] at hsome
        have := std_switchTimer01_byte hp hsome
        omega
    · rcases std_call_timer1 pin p (Or.inr h) with ⟨_, hid⟩ | ⟨mode, hsome, _, _⟩
      · exact hid sS
      · rw [hmod] at hsome
        have := std_switchTimer01_byte hp hsome
        omega
  · intro hpin hne
    rcases std_call_timer2 pin p hpin with ⟨_, hid⟩ | ⟨mode, hsome, _, _⟩
    · exact hid sS
    · rw [hmod] at hsome
      have := std_switchTimer2_byte hp hsome
      omega
  · intro hpin hne
    rcases hpin with h | h | h | h | h
    · rcases u4_call_pins_3_11 pin p (Or.inl h) with ⟨_, hid⟩ | ⟨mode, hsome, _, _⟩
      · exact hid sU
      · rw [hmod] at hsome
        have := u4_switchFirst_byte hp hsome
        omega
    · subst h
      rcases u4_call_pin_5 p with ⟨_, hid⟩ | ⟨mode, hsome, _, _⟩
      · exact hid sU
      · rw [hmod] at hsome
        have := u4_switchFirst_byte hp hsome
        omega
    · rcases u4_call_pins_9_10 pin p (Or.inl h) with ⟨_, hid⟩ | ⟨mode, hsome, _, _⟩
      · exact hid sU
      · rw [hmod] at hsome
        have := u4_switchFirst_byte hp hsome
        omega
    · rcases u4_call_pins_9_10 pin p (Or.inr h) with ⟨_, hid⟩ | ⟨mode, hsome, _, _⟩
      · exact hid sU
      · rw [hmod] at hsome
        have := u4_switchFirst_byte hp hsome
        omega
    · rcases u4_call_pins_3_11 pin p (Or.inr h) with ⟨_, hid⟩ | ⟨mode, hsome, _, _⟩
      · exact hid sU
      · rw [hmod] at hsome
        have := u4_switchFirst_byte hp hsome
        omega
  · intro hpin hacc
    rcases std_call_timer0 pin p hpin with ⟨hnone, _⟩ | ⟨mode, hsome, hm, h⟩
    · rw [hmod] at hnone
      rcases hacc with rfl | rfl | rfl <;> simp [Standard.switchTimer01] at hnone
    · rw [hmod] at hsome
      have hb := std_switchTimer01_byte hp hsome
      rw [h sS]
      show ((sS.TCCR0B &&& 0b11111000 ||| mode) % 2 ^ 8) % 8 = 1 ∨ _ = 2 ∨ _ = 3
      rw [store3_low_bits _ _ hm]
      omega
  · intro hpin hacc
    rcases std_call_timer1 pin p hpin with ⟨hnone, _⟩ | ⟨mode, hsome, hm, h⟩
    · rw [hmod] at hnone
      rcases hacc with rfl | rfl | rfl <;> simp [Standard.switchTimer01] at hnone
    · rw [hmod] at hsome
      have hb := std_switchTimer01_byte hp hsome
      rw [h sS]
      show ((sS.TCCR1B &&& 0b11111000 ||| mode) % 2 ^ 8) % 8 = 1 ∨ _ = 2 ∨ _ = 3
      rw [store3_low_bits _ _ hm]
      omega
  · intro hpin hacc
    rcases std_call_timer2 pin p hpin with ⟨hnone, _⟩ | ⟨mode, hsome, hm, h⟩
    · rw [hmod] at hnone
      rcases hacc with rfl | rfl | rfl | rfl | rfl <;>
        simp [Standard.switchTimer2] at hnone
    · rw [hmod] at hsome
      have hb := std_switchTimer2_byte hp hsome
      rw [h sS]
      show 1 ≤ ((sS.TCCR2B &&& 0b11111000 ||| mode) % 2 ^ 8) % 8 ∧ _ ≤ 5
      rw [store3_low_bits _ _ hm]
      omega
  · intro hpin hacc
    rcases u4_call_pins_3_11 pin p hpin with ⟨hnone, _⟩ | ⟨mode, hsome, hm, h⟩
    · rw [hmod] at hnone
      rcases hacc with rfl | rfl | rfl <;> simp [ATmega32U4.switchFirst] at hnone
    · rw [hmod] at hsome
      have hb := u4_switchFirst_byte hp hsome
      rw [h sU]
      show ((sU.TCCR1B &&& 0b11111000 ||| mode) % 2 ^ 8) % 8 = 1 ∨ _ = 2 ∨ _ = 3
      rw [store3_low_bits _ _ hm]
      omega
  · intro hpin hacc
    rcases u4_call_pins_9_10 pin p hpin with ⟨hnone, _⟩ | ⟨mode, hsome, hm, h⟩
    · rw [hmod] at hnone
      rcases hacc with rfl | rfl | rfl <;> simp [ATmega32U4.switchFirst] at hnone
    · rw [hmod] at hsome
      have hb := u4_switchFirst_byte hp hsome
      rw [h sU]
      show ((sU.TCCR1B &&& 0b11111000 ||| mode) % 2 ^ 8) % 8 = 1 ∨ _ = 2 ∨ _ = 3
      rw [store3_low_bits _ _ hm]
      omega
  · rintro rfl hacc
    rcases u4_call_pin_5 p with ⟨hnone, _⟩ | ⟨mode, hsome, hm, h⟩
    · rw [hmod] at hnone
      rcases hacc with rfl | rfl | rfl <;> simp [ATmega32U4.switchFirst] at hnone
    · rw [hmod] at hsome
      have hb := u4_switchFirst_byte hp hsome
      rw [h sU]
      show ((sU.TCCR3B &&& 0b11111000 ||| mode) % 2 ^ 8) % 8 = 1 ∨ _ = 2 ∨ _ = 3
      rw [store3_low_bits _ _ hm]
      omega
  · exact fun a => std_setPWMPrescaler_mod sS pin a
  · exact fun a => u4_setPWMPrescaler_mod sU pin a
  · exact std_setPWMPrescaler_mul_256 sS pin 1
  · exact std_setPWMPrescaler_mul_256 sS pin 4
  · exact u4_setPWMPrescaler_mul_256 sU pin 1
  · exact u4_setPWMPrescaler_mul_256 sU pin 4

/-- Witness for `prescale_parameter_is_8bit`: the 8-bit value 128 on pin 9 is a
no-op in both variants (128 is a label of the timer2 switch only), the value
64 on pin 5 leaves the low three bits of the standard `TCCR0B` in `{1,2,3}`,
and the argument 256 on pin 5 is a no-op. -/
theorem prescale_parameter_is_8bit_witness :
    (128 : Nat) < 2 ^ 8 ∧ (64 : Nat) < 2 ^ 8 ∧
    Standard.setPWMPrescaler ⟨0xC7, 0xA5, 0x11⟩ 9 128 = ⟨0xC7, 0xA5, 0x11⟩ ∧
    ATmega32U4.setPWMPrescaler ⟨0xC7, 0xA5, 0x11, 0x0F⟩ 9 128 = ⟨0xC7, 0xA5, 0x11, 0x0F⟩ ∧
    ((Standard.setPWMPrescaler ⟨0xC7, 0xA5, 0x11⟩ 5 64).TCCR0B % 8 = 1 ∨
      (Standard.setPWMPrescaler ⟨0xC7, 0xA5, 0x11⟩ 5 64).TCCR0B % 8 = 2 ∨
      (Standard.setPWMPrescaler ⟨0xC7, 0xA5, 0x11⟩ 5 64).TCCR0B % 8 = 3) ∧
    Standard.setPWMPrescaler ⟨0xC7, 0xA5, 0x11⟩ 5 256 = ⟨0xC7, 0xA5, 0x11⟩ :=
  ⟨by decide, by decide,
   (prescale_parameter_is_8bit ⟨0xC7, 0xA5, 0x11⟩ ⟨0xC7, 0xA5, 0x11, 0x0F⟩ 9 128
     (by decide)).1 (by decide) (by decide),
   (prescale_parameter_is_8bit ⟨0xC7, 0xA5, 0x11⟩ ⟨0xC7, 0xA5, 0x11, 0x0F⟩ 9 128
     (by decide)).2.2.1 (by decide) (by decide),
   (prescale_parameter_is_8bit ⟨0xC7, 0xA5, 0x11⟩ ⟨0xC7, 0xA5, 0x11, 0x0F⟩ 5 64
     (by decide)).2.2.2.1 (by decide) (by decide),
   (prescale_parameter_is_8bit ⟨0xC7, 0xA5, 0x11⟩ ⟨0xC7, 0xA5, 0x11, 0x0F⟩ 5 64
     (by decide)).2.2.2.2.2.2.2.2.2.2.2.1⟩

/-- C15. Enhanced variant: `TCCR4B` is never modified.  For every initial
register state, every pin and every prescale value, `TCCR4B` after the call
equals `TCCR4B` before it; the test `pin == 3 || pin == 11` of the `TCCR4B`
branch cannot hold once the first test
`pin == 3 || pin == 5 || pin == 9 || pin == 10 || pin == 11` has failed. -/
theorem u4_TCCR4B_never_modified (s : ATmega32U4.Regs) (pin prescale : Nat) :
    (ATmega32U4.setPWMPrescaler s pin prescale).TCCR4B = s.TCCR4B ∧
    ¬ (¬ (pin % 2 ^ 8 = 3 ∨ pin % 2 ^ 8 = 5 ∨ pin % 2 ^ 8 = 9 ∨ pin % 2 ^ 8 = 10 ∨
          pin % 2 ^ 8 = 11) ∧
        (pin % 2 ^ 8 = 3 ∨ pin % 2 ^ 8 = 11)) := by
  refine ⟨u4_setPWMPrescaler_TCCR4B s pin prescale, ?_⟩
  rintro ⟨hnot, h3 | h11⟩
  · exact hnot (Or.inl h3)
  · exact hnot (Or.inr (Or.inr (Or.inr (Or.inr h11))))

/-- C16. Calls on different timer groups commute, in both variants.  For every
initial register state, all divisors `d1`, `d2` and all pins `p1`, `p2` of
different timer groups (standard `{5,6}`, `{9,10}`, `{3,11}`; enhanced
`{3,11}`, `{9,10}`, `{5}`), the two calls in either order yield the same
complete register state, also when the enhanced pins-3/11 call reads the
`TCCR1B` that the pins-9/10 call writes. -/
theorem different_groups_commute (sS : Standard.Regs) (sU : ATmega32U4.Regs)
    (p1 p2 d1 d2 : Nat) :
    (((p1 = 5 ∨ p1 = 6) ∧ ((p2 = 9 ∨ p2 = 10) ∨ (p2 = 3 ∨ p2 = 11)) ∨
        (p1 = 9 ∨ p1 = 10) ∧ ((p2 = 5 ∨ p2 = 6) ∨ (p2 = 3 ∨ p2 = 11)) ∨
        (p1 = 3 ∨ p1 = 11) ∧ ((p2 = 5 ∨ p2 = 6) ∨ (p2 = 9 ∨ p2 = 10))) →
      Standard.setPWMPrescaler (Standard.setPWMPrescaler sS p1 d1) p2 d2
        = Standard.setPWMPrescaler (Standard.setPWMPrescaler sS p2 d2) p1 d1) ∧
    (((p1 = 3 ∨ p1 = 11) ∧ ((p2 = 9 ∨ p2 = 10) ∨ p2 = 5) ∨
        (p1 = 9 ∨ p1 = 10) ∧ ((p2 = 3 ∨ p2 = 11) ∨ p2 = 5) ∨
        p1 = 5 ∧ ((p2 = 3 ∨ p2 = 11) ∨ (p2 = 9 ∨ p2 = 10))) →
      ATmega32U4.setPWMPrescaler (ATmega32U4.setPWMPrescaler sU p1 d1) p2 d2
        = ATmega32U4.setPWMPrescaler (ATmega32U4.setPWMPrescaler sU p2 d2) p1 d1) := by
  constructor
  · rintro (⟨h1, h2 | h2⟩ | ⟨h1, h2 | h2⟩ | ⟨h1, h2 | h2⟩)
    · exact std_commute_timer0_timer1 p1 p2 d1 d2 h1 h2 sS
    · exact std_commute_timer0_timer2 p1 p2 d1 d2 h1 h2 sS
    · exact (std_commute_timer0_timer1 p2 p1 d2 d1 h2 h1 sS).symm
    · exact std_commute_timer1_timer2 p1 p2 d1 d2 h1 h2 sS
    · exact (std_commute_timer0_timer2 p2 p1 d2 d1 h2 h1 sS).symm
    · exact (std_commute_timer1_timer2 p2 p1 d2 d1 h2 h1 sS).symm
  · rintro (⟨h1, h2 | rfl⟩ | ⟨h1, h2 | rfl⟩ | ⟨rfl, h2 | h2⟩)
    · exact u4_commute_pins_3_11_pins_9_10 p1 p2 d1 d2 h1 h2 sU
    · exact u4_commute_pins_3_11_pin_5 p1 d1 d2 h1 sU
    · exact (u4_commute_pins_3_11_pins_9_10 p2 p1 d2 d1 h2 h1 sU).symm
    · exact u4_commute_pins_9_10_pin_5 p1 d1 d2 h1 sU
    · exact (u4_commute_pins_3_11_pin_5 p2 d2 d1 h2 sU).symm
    · exact (u4_commute_pins_9_10_pin_5 p2 d2 d1 h2 sU).symm

/-- Witness for `different_groups_commute`: standard pins 5 (divisor 8) and 11
(divisor 128); enhanced pins 3 (divisor 64) and 9 (divisor 8), where the
pins-3 call reads the `TCCR1B` that the pins-9 call writes. -/
theorem different_groups_commute_witness :
    Standard.setPWMPrescaler (Standard.setPWMPrescaler ⟨0xC7, 0xA5, 0x11⟩ 5 8) 11 128
      = Standard.setPWMPrescaler (Standard.setPWMPrescaler ⟨0xC7, 0xA5, 0x11⟩ 11 128) 5 8 ∧
    ATmega32U4.setPWMPrescaler (ATmega32U4.setPWMPrescaler ⟨0xC7, 0xA5, 0x11, 0x0F⟩ 3 64) 9 8
      = ATmega32U4.setPWMPrescaler
          (ATmega32U4.setPWMPrescaler ⟨0xC7, 0xA5, 0x11, 0x0F⟩ 9 8) 3 64 :=
  ⟨(different_groups_commute ⟨0xC7, 0xA5, 0x11⟩ ⟨0xC7, 0xA5, 0x11, 0x0F⟩ 5 11 8 128).1
     (by decide),
   (different_groups_commute ⟨0xC7, 0xA5, 0x11⟩ ⟨0xC7, 0xA5, 0x11, 0x0F⟩ 3 9 64 8).2
     (by decide)⟩

/-- C17. Last write wins within a timer group, in both variants.  For every
initial register state, all pins `p1`, `p2` of the same timer group, every
prescale `d1`, and every prescale `d2` that the group's switch accepts (the
switch, run on the 8-bit parameter value, does not reach `default`), the call
for `(p1, d1)` followed by the call for `(p2, d2)` yields the same complete
register state as the call for `(p2, d2)` alone. -/
theorem last_write_wins (sS : Standard.Regs) (sU : ATmega32U4.Regs) (p1 p2 d1 d2 : Nat) :
    (((p1 = 5 ∨ p1 = 6) ∧ (p2 = 5 ∨ p2 = 6) ∨ (p1 = 9 ∨ p1 = 10) ∧ (p2 = 9 ∨ p2 = 10)) →
      Standard.switchTimer01 (d2 % 2 ^ 8) ≠ none →
      Standard.setPWMPrescaler (Standard.setPWMPrescaler sS p1 d1) p2 d2
        = Standard.setPWMPrescaler sS p2 d2) ∧
    (((p1 = 3 ∨ p1 = 11) ∧ (p2 = 3 ∨ p2 = 11)) →
      Standard.switchTimer2 (d2 % 2 ^ 8) ≠ none →
      Standard.setPWMPrescaler (Standard.setPWMPrescaler sS p1 d1) p2 d2
        = Standard.setPWMPrescaler sS p2 d2) ∧
    (((p1 = 3 ∨ p1 = 11) ∧ (p2 = 3 ∨ p2 = 11) ∨ (p1 = 9 ∨ p1 = 10) ∧ (p2 = 9 ∨ p2 = 10) ∨
        p1 = 5 ∧ p2 = 5) →
      ATmega32U4.switchFirst (d2 % 2 ^ 8) ≠ none →
      ATmega32U4.setPWMPrescaler (ATmega32U4.setPWMPrescaler sU p1 d1) p2 d2
        = ATmega32U4.setPWMPrescaler sU p2 d2) := by
  refine ⟨?_, ?_, ?_⟩
  · rintro (⟨h1, h2⟩ | ⟨h1, h2⟩) hacc
    · rcases std_call_timer0 p2 d2 h2 with ⟨hnone, _⟩ | ⟨m2, _, _, e2⟩
      · exact absurd hnone hacc
      · rcases std_call_timer0 p1 d1 h1 with ⟨_, e1⟩ | ⟨m1, _, hm1, e1⟩
        · simp only [e1, e2]
        · simp only [e1, e2, store3_high_bits _ _ hm1]
    · rcases std_call_timer1 p2 d2 h2 with ⟨hnone, _⟩ | ⟨m2, _, _, e2⟩
      · exact absurd hnone hacc
      · rcases std_call_timer1 p1 d1 h1 with ⟨_, e1⟩ | ⟨m1, _, hm1, e1⟩
        · simp only [e1, e2]
        · simp only [e1, e2, store3_high_bits _ _ hm1]
  · rintro ⟨h1, h2⟩ hacc
    rcases std_call_timer2 p2 d2 h2 with ⟨hnone, _⟩ | ⟨m2, _, _, e2⟩
    · exact absurd hnone hacc
    · rcases std_call_timer2 p1 d1 h1 with ⟨_, e1⟩ | ⟨m1, _, hm1, e1⟩
      · simp only [e1, e2]
      · simp only [e1, e2, store3_high_bits _ _ hm1]
  · rintro (⟨h1, h2⟩ | ⟨h1, h2⟩ | ⟨rfl, rfl⟩) hacc
    · rcases u4_call_pins_3_11 p2 d2 h2 with ⟨hnone, _⟩ | ⟨m2, _, _, e2⟩
      · exact absurd hnone hacc
      · rcases u4_call_pins_3_11 p1 d1 h1 with ⟨_, e1⟩ | ⟨m1, _, hm1, e1⟩
        · simp only [e1, e2]
        · simp only [e1, e2]
    · rcases u4_call_pins_9_10 p2 d2 h2 with ⟨hnone, _⟩ | ⟨m2, _, _, e2⟩
      · exact absurd hnone hacc
      · rcases u4_call_pins_9_10 p1 d1 h1 with ⟨_, e1⟩ | ⟨m1, _, hm1, e1⟩
        · simp only [e1, e2]
        · simp only [e1, e2, store3_high_bits _ _ hm1]
    · rcases u4_call_pin_5 d2 with ⟨hnone, _⟩ | ⟨m2, _, _, e2⟩
      · exact absurd hnone hacc
      · rcases u4_call_pin_5 d1 with ⟨_, e1⟩ | ⟨m1, _, hm1, e1⟩
        · simp only [e1, e2]
        · simp only [e1, e2, store3_high_bits _ _ hm1]

/-- Witness for `last_write_wins`: standard pin 5 with divisor 64, then pin 6
with divisor 8; standard pin 3 with divisor 128, then pin 11 with divisor 32;
enhanced pin 9 with divisor 64, then pin 10 with divisor 1. -/
theorem last_write_wins_witness :
    Standard.setPWMPrescaler (Standard.setPWMPrescaler ⟨0xC7, 0xA5, 0x11⟩ 5 64) 6 8
      = Standard.setPWMPrescaler ⟨0xC7, 0xA5, 0x11⟩ 6 8 ∧
    Standard.setPWMPrescaler (Standard.setPWMPrescaler ⟨0xC7, 0xA5, 0x11⟩ 3 128) 11 32
      = Standard.setPWMPrescaler ⟨0xC7, 0xA5, 0x11⟩ 11 32 ∧
    ATmega32U4.setPWMPrescaler (ATmega32U4.setPWMPrescaler ⟨0xC7, 0xA5, 0x11, 0x0F⟩ 9 64) 10 1
      = ATmega32U4.setPWMPrescaler ⟨0xC7, 0xA5, 0x11, 0x0F⟩ 10 1 :=
  ⟨(last_write_wins ⟨0xC7, 0xA5, 0x11⟩ ⟨0xC7, 0xA5, 0x11, 0x0F⟩ 5 6 64 8).1
     (by decide) (by decide),
   (last_write_wins ⟨0xC7, 0xA5, 0x11⟩ ⟨0xC7, 0xA5, 0x11, 0x0F⟩ 3 11 128 32).2.1
     (by decide) (by decide),
   (last_write_wins ⟨0xC7, 0xA5, 0x11⟩ ⟨0xC7, 0xA5, 0x11, 0x0F⟩ 9 10 64 1).2.2
     (by decide) (by decide)⟩
